import Mathlib

/-!
Shallow embedding of the conversation-orchestration core of the
`gemini-cli` repository (TypeScript), covering:

* `packages/core/src/core/chat.ts` — the mock `Chat` class, the
  `DeepSeekChat` class and the `DeepSeekClient` provider;
* `packages/core/src/config/auth.ts` (second part of the file) — the
  `LLMProviderAdapter` bridging `LLMProvider` to `ContentGenerator`;
* `packages/cli/src/ui/hooks/useAuthCommand.ts` — the authentication
  flow controller (modelled as an explicit state machine over the
  React state / refs the hook manipulates).

The network is modelled as an explicit function from the posted request
to an axios-style outcome; an aborted signal makes the post reject with
a cancellation error carrying no HTTP response, exactly as axios does.
-/

namespace GeminiCli

/-- A content part.  Parts are text-only in this code base
(`{ text: string }`). -/
structure Part where
  text : String
deriving DecidableEq

/-- `Content` from `@google/genai` as this code uses it:
a role string plus a list of parts.  A missing role is the empty
string (JS `undefined` is falsy, handled by `content.role || 'user'`). -/
structure Content where
  role : String
  parts : List Part
deriving DecidableEq

/-- A DeepSeek wire message `{role, content}`. -/
structure Message where
  role : String
  content : String
deriving DecidableEq

/-- `usage` object of a DeepSeek response
(`{prompt_tokens, completion_tokens, total_tokens}`). -/
structure Usage where
  prompt_tokens : Nat
  completion_tokens : Nat
  total_tokens : Nat
deriving DecidableEq

/-- `choices[i].message` of a DeepSeek response; `content` may be
absent (`message?.content`). -/
structure DSMessage where
  content : Option String
deriving DecidableEq

/-- One element of `choices` in a DeepSeek response; `message` may be
absent (`choices[0]?.message`). -/
structure DSChoice where
  message : Option DSMessage
deriving DecidableEq

/-- The JSON body of a successful DeepSeek chat-completions response,
as far as this code reads it. -/
structure DeepSeekResponse where
  choices : List DSChoice
  usage : Option Usage
deriving DecidableEq

/-- `deepseekResponse.choices[0]?.message?.content || ''`. -/
def choiceText (d : DeepSeekResponse) : String :=
  ((d.choices.head?.bind (·.message)).bind (·.content)).getD ""

/-- `usageMetadata` of a `GenerateContentResponse`. -/
structure UsageMetadata where
  promptTokenCount : Nat
  candidatesTokenCount : Nat
  totalTokenCount : Nat
deriving DecidableEq

/-- The only finish reason this code ever produces. -/
inductive FinishReason where
  | STOP
deriving DecidableEq

/-- One candidate of a `GenerateContentResponse`.  The `index` field is
set by `convertDeepSeekResponseToGeminiFormat` but omitted by
`DeepSeekChat.sendMessageStream`'s inline construction. -/
structure Candidate where
  content : Content
  finishReason : FinishReason
  index : Option Nat
deriving DecidableEq

/-- `GenerateContentResponse` as constructed by this code.
`usageMetadata` is an optional property on the class, so presence is a
fact to prove, not a fact of the type.  `promptFeedbackPresent` records
whether the code assigned the (empty) `promptFeedback` object. -/
structure GenerateContentResponse where
  candidates : List Candidate
  usageMetadata : Option UsageMetadata
  promptFeedbackPresent : Bool
deriving DecidableEq

/-- `{prompt_tokens || 0, completion_tokens || 0, total_tokens || 0}`
from an optional `usage` object (`usage?.prompt_tokens || 0` — the JS
`|| 0` maps a missing object and a zero count alike to `0`). -/
def mkUsage : Option Usage → UsageMetadata
  | some u => ⟨u.prompt_tokens, u.completion_tokens, u.total_tokens⟩
  | none => ⟨0, 0, 0⟩

/-- The HTTP body + auth header posted to the DeepSeek endpoint.
`temperature`/`top_p`/`max_tokens` are only present on the
`generateContentWithSystemPrompt` path. -/
structure PostedRequest where
  model : String
  messages : List Message
  stream : Bool
  temperature : Option Int
  top_p : Option Int
  max_tokens : Option Nat
  authKey : String
deriving DecidableEq

/-- `error.response` of a failed axios call: HTTP status, status text and
the optional backend error message (`response.data?.error?.message`). -/
structure AxiosErrResponse where
  status : Nat
  statusText : String
  errorMessage : Option String
deriving DecidableEq

/-- Outcome of one axios `post`: resolved data, or a rejection that may
or may not carry an HTTP response (`error.response` is absent for
network-level failures and cancellations). -/
inductive AxiosOutcome where
  | ok (data : DeepSeekResponse)
  | err (response : Option AxiosErrResponse) (message : String)
deriving DecidableEq

/-- The backend transport: what the network does with a posted request. -/
def Backend : Type := PostedRequest → AxiosOutcome

/-- `axios.post` with an abort signal: an aborted signal makes axios
reject with a cancellation error that has no `response`. -/
def axiosPost (aborted : Bool) (bk : Backend) (req : PostedRequest) : AxiosOutcome :=
  if aborted then .err none "canceled" else bk req

/-- An error thrown by this code: either an `Error` constructed with a
message, or a rethrown axios error object. -/
inductive Thrown where
  | errMessage (msg : String)
  | axiosError (response : Option AxiosErrResponse) (message : String)
deriving DecidableEq

/-- `process.env.DEEPSEEK_API_KEY ? 'SET' : 'NOT SET'`. -/
def envStatus (envSet : Bool) : String :=
  if envSet then "SET" else "NOT SET"

/-- The 403 diagnostic built by `DeepSeekChat.sendMessageStream` and
`DeepSeekClient.generateContentWithSystemPrompt`. -/
def authFailedMsg (envSet : Bool) : String :=
  "DeepSeek API authentication failed. Environment variable DEEPSEEK_API_KEY: "
    ++ envStatus envSet ++ ". Please check your API key."

/-- JS `a || b` on an optional string: the empty string is falsy. -/
def orFalsyStr : Option String → String → String
  | some s, d => if s = "" then d else s
  | none, d => d

/-- The generic error of `generateContentWithSystemPrompt`:
`DeepSeek API Error: msg (Status: s)`. -/
def dsApiErrorMsg (r : AxiosErrResponse) : String :=
  "DeepSeek API Error: " ++ orFalsyStr r.errorMessage r.statusText
    ++ " (Status: " ++ toString r.status ++ ")"

/-- The generic error of `DeepSeekClient.generateContent`:
`API Error: msg (Status: s)` with 403 printed as `Forbidden`. -/
def apiErrorMsgGC (r : AxiosErrResponse) : String :=
  "API Error: " ++ orFalsyStr r.errorMessage r.statusText ++ " (Status: "
    ++ (if r.status = 403 then "Forbidden" else toString r.status) ++ ")"

/-- `join('')` over the texts of a part list
(`parts.map(p => 'text' in p ? (p.text || '') : '').join('')`). -/
def flattenParts (ps : List Part) : String :=
  String.join (ps.map (·.text))

/-- JS truthiness of `s.trim()`, negated: `s.trim()` is falsy exactly
when `s` consists of whitespace only. -/
def isBlank (s : String) : Bool :=
  s.data.all (fun c => c.isWhitespace)

/-- Role conversion used by `DeepSeekChat.sendMessageStream`:
`content.role === 'model' ? 'assistant' : (content.role || 'user')`. -/
def dsRole (r : String) : String :=
  if r = "model" then "assistant" else if r = "" then "user" else r

/-- The `message` parameter of `DeepSeekChat.sendMessageStream`:
a string, a `Part[]`, or a single `Part`. -/
inductive MessageParam where
  | str (s : String)
  | parts (ps : List Part)
  | part (p : Part)
deriving DecidableEq

/-- The message-to-text conversion at the top of
`DeepSeekChat.sendMessageStream`. -/
def messageToText : MessageParam → String
  | .str s => s
  | .parts ps => flattenParts ps
  | .part p => p.text

/-- The mutable fields of a `DeepSeekChat` instance. -/
structure DeepSeekChatState where
  apiKey : String
  model : String
  systemPrompt : String
  history : List Content
deriving DecidableEq

/-- The inline `GenerateContentResponse` built on the success path of
`DeepSeekChat.sendMessageStream` (no `index`, no `promptFeedback`). -/
def mkStreamResponse (assistantMessage : String) (usage : Option Usage) :
    GenerateContentResponse :=
  { candidates := [{ content := ⟨"model", [⟨assistantMessage⟩]⟩,
                     finishReason := .STOP, index := none }],
    usageMetadata := some (mkUsage usage),
    promptFeedbackPresent := false }

/-- The messages list `DeepSeekChat.sendMessageStream` builds after the
user message is already in history: an optional leading system message
(skipped when the system prompt trims to empty), then every history
entry whose flattened text is non-blank, with roles converted. -/
def dsChatMessages (systemPrompt : String) (history : List Content) : List Message :=
  (if isBlank systemPrompt then [] else [⟨"system", systemPrompt⟩])
    ++ history.filterMap (fun c =>
        let text := flattenParts c.parts
        if isBlank text then none else some ⟨dsRole c.role, text⟩)

/-- The body posted by `DeepSeekChat.sendMessageStream`
(`{model:'deepseek-chat', messages, stream:false}`). -/
def dsChatPosted (apiKey : String) (messages : List Message) : PostedRequest :=
  { model := "deepseek-chat", messages := messages, stream := false,
    temperature := none, top_p := none, max_tokens := none, authKey := apiKey }

/-- `DeepSeekChat.sendMessageStream`: pushes the user message into
history, posts the full (filtered) history, and on success pushes the
assistant message and returns a one-shot response; on a 403 throws the
auth diagnostic; any other error is rethrown.  Note the user turn is
committed to history *before* the network call and is not rolled back
on failure. -/
def DeepSeekChatState.sendMessageStream (st : DeepSeekChatState) (envSet : Bool)
    (bk : Backend) (aborted : Bool) (msg : MessageParam) :
    DeepSeekChatState × Except Thrown GenerateContentResponse :=
  let messageText := messageToText msg
  let st1 : DeepSeekChatState :=
    { st with history := st.history ++ [⟨"user", [⟨messageText⟩]⟩] }
  let messages := dsChatMessages st.systemPrompt st1.history
  match axiosPost aborted bk (dsChatPosted st.apiKey messages) with
  | .ok data =>
      let assistantMessage := choiceText data
      let st2 : DeepSeekChatState :=
        { st1 with history := st1.history ++ [⟨"model", [⟨assistantMessage⟩]⟩] }
      (st2, .ok (mkStreamResponse assistantMessage data.usage))
  | .err (some r) m =>
      if r.status = 403 then (st1, .error (.errMessage (authFailedMsg envSet)))
      else (st1, .error (.axiosError (some r) m))
  | .err none m => (st1, .error (.axiosError none m))

/-! ### `DeepSeekClient.generateContentWithSystemPrompt` and the
`LLMProviderAdapter` (`contentGenerator.ts` part of `config/auth.ts`) -/

/-- `convertDeepSeekResponseToGeminiFormat`: wraps
`choices[0]?.message?.content || ''` into a single model candidate with
`index: 0`, attaches `usageMetadata` with `|| 0` defaults and an empty
`promptFeedback`. -/
def convertDeepSeekResponseToGeminiFormat (d : DeepSeekResponse) :
    GenerateContentResponse :=
  { candidates := [{ content := ⟨"model", [⟨choiceText d⟩]⟩,
                     finishReason := .STOP, index := some 0 }],
    usageMetadata := some (mkUsage d.usage),
    promptFeedbackPresent := true }

/-- A `PartUnion` element of a `systemInstruction` array: a bare string
or a part object. -/
inductive PartUnion where
  | str (s : String)
  | part (p : Part)
deriving DecidableEq

/-- The `systemInstruction` union accepted by
`generateContentWithSystemPrompt`: string, `PartUnion[]`, `Content`
(has `parts`), or a single `Part` (has `text`). -/
inductive SystemInstruction where
  | str (s : String)
  | partList (ps : List PartUnion)
  | content (c : Content)
  | part (p : Part)
deriving DecidableEq

/-- Flattening of the system instruction union (lines 361-378 of
`chat.ts`). -/
def systemText : SystemInstruction → String
  | .str s => s
  | .partList ps => String.join (ps.map (fun pu => match pu with
      | .str s => s
      | .part p => p.text))
  | .content c => flattenParts c.parts
  | .part p => p.text

/-- One element of `req.contents`: string, `Part[]`, a `Content`
(object with `parts`), or any other object wrapped as a single part. -/
inductive ContentItem where
  | str (s : String)
  | parts (ps : List Part)
  | content (c : Content)
  | other (p : Part)
deriving DecidableEq

/-- The per-item normalisation in the `contents` loop of
`generateContentWithSystemPrompt` (lines 393-404). -/
def itemToContent : ContentItem → Content
  | .str s => ⟨"user", [⟨s⟩]⟩
  | .parts ps => ⟨"user", ps⟩
  | .content c => c
  | .other p => ⟨"user", [p]⟩

/-- Role conversion in `generateContentWithSystemPrompt`:
`content.role === 'model' ? 'assistant' : content.role` (no fallback
for an empty role here, unlike `DeepSeekChat`). -/
def wspRole (r : String) : String :=
  if r = "model" then "assistant" else r

/-- `GenerateContentParameters` as far as this code reads it, plus the
state of the caller-supplied abort signal. -/
structure GenParams where
  contents : List ContentItem
  systemInstruction : Option SystemInstruction
  temperature : Option Int
  topP : Option Int
  maxOutputTokens : Option Nat
  aborted : Bool
deriving DecidableEq

/-- JS `o || d` on an optional integer (zero is falsy). -/
def orFalsyInt : Option Int → Int → Int
  | some v, d => if v = 0 then d else v
  | none, d => d

/-- JS `o || d` on an optional natural (zero is falsy). -/
def orFalsyNat : Option Nat → Nat → Nat
  | some v, d => if v = 0 then d else v
  | none, d => d

/-- The messages list built by `generateContentWithSystemPrompt`: an
optional leading system message (skipped when the flattened system text
trims to blank), then one message per content item whose flattened text
is non-blank. -/
def buildMessagesWSP (req : GenParams) : List Message :=
  (match req.systemInstruction with
   | some si => if isBlank (systemText si) then [] else [⟨"system", systemText si⟩]
   | none => [])
  ++ (req.contents.map itemToContent).filterMap (fun c =>
      let text := flattenParts c.parts
      if isBlank text then none else some ⟨wspRole c.role, text⟩)

/-- The body posted by `generateContentWithSystemPrompt`
(`temperature || 0`, `top_p || 1`, `max_tokens || 8192`). -/
def wspPosted (apiKey : String) (req : GenParams) : PostedRequest :=
  { model := "deepseek-chat", messages := buildMessagesWSP req, stream := false,
    temperature := some (orFalsyInt req.temperature 0),
    top_p := some (orFalsyInt req.topP 1),
    max_tokens := some (orFalsyNat req.maxOutputTokens 8192),
    authKey := apiKey }

/-- `DeepSeekClient.generateContentWithSystemPrompt`: builds the
messages, always posts them (there is no empty-request guard), and maps
the outcome; returns the result together with the list of network calls
performed.  A 403 throws the auth diagnostic, any other HTTP error
throws the generic `DeepSeek API Error`, a response-less failure is
rethrown. -/
def generateContentWithSystemPrompt (apiKey : String) (envSet : Bool)
    (bk : Backend) (req : GenParams) :
    Except Thrown GenerateContentResponse × List PostedRequest :=
  let posted := wspPosted apiKey req
  (match axiosPost req.aborted bk posted with
   | .ok data => .ok (convertDeepSeekResponseToGeminiFormat data)
   | .err (some r) _ =>
       if r.status = 403 then .error (.errMessage (authFailedMsg envSet))
       else .error (.errMessage (dsApiErrorMsg r))
   | .err none m => .error (.axiosError none m),
   [posted])

/-- `LLMProviderAdapter.generateContent` for the DeepSeek provider:
the provider has `generateContentWithSystemPrompt`, so the adapter
delegates to it. -/
def adapterGenerateContent (apiKey : String) (envSet : Bool)
    (bk : Backend) (req : GenParams) :
    Except Thrown GenerateContentResponse × List PostedRequest :=
  generateContentWithSystemPrompt apiKey envSet bk req

/-- `LLMProviderAdapter.generateContentStream` for the DeepSeek
provider: awaits the same buffered call and wraps the single response
in a one-shot async generator (modelled as a one-element list); a
rejection propagates before any generator exists. -/
def adapterGenerateContentStream (apiKey : String) (envSet : Bool)
    (bk : Backend) (req : GenParams) :
    Except Thrown (List GenerateContentResponse) × List PostedRequest :=
  let r := generateContentWithSystemPrompt apiKey envSet bk req
  (r.1.map (fun resp => [resp]), r.2)

/-! ### `DeepSeekClient.generateContent` and its hard-coded message
conversion -/

/-- A `Turn` (from `turn.ts`, not part of the visible sources; the spec
describes it as a role with ordered parts).  `convertTurnsToMessages`
ignores its contents entirely. -/
structure Turn where
  role : String
  parts : List Part
deriving DecidableEq

/-- `DeepSeekClient.convertTurnsToMessages`: ignores the history and
returns the single hard-coded user message. -/
def convertTurnsToMessages (_history : List Turn) : List Message :=
  [⟨"user", "Hello, how can you help me?"⟩]

/-- The `DEEPSEEK_API_KEY is not configured` diagnostic thrown by
`DeepSeekClient.generateContent` when the key is empty;
`providersRepr` stands for `JSON.stringify(configProviders)`. -/
def notConfiguredMsg (envSet : Bool) (providersRepr : String) : String :=
  "DEEPSEEK_API_KEY is not configured.\nEnvironment variable DEEPSEEK_API_KEY: "
    ++ envStatus envSet ++ "\nConfig providers: " ++ providersRepr
    ++ "\nPlease set the DEEPSEEK_API_KEY environment variable."

/-- `DeepSeekClient.generateContent`: throws if the key is unset,
otherwise posts `convertTurnsToMessages(history)` with no abort signal
and converts the response; an HTTP error becomes the `API Error`
message, a response-less failure is rethrown.  Returns the result with
the list of network calls performed. -/
def clientGenerateContent (apiKey : String) (envSet : Bool)
    (providersRepr : String) (bk : Backend) (history : List Turn) :
    Except Thrown GenerateContentResponse × List PostedRequest :=
  if apiKey = "" then
    (.error (.errMessage (notConfiguredMsg envSet providersRepr)), [])
  else
    let posted : PostedRequest :=
      { model := "deepseek-chat", messages := convertTurnsToMessages history,
        stream := false, temperature := none, top_p := none,
        max_tokens := none, authKey := apiKey }
    (match bk posted with
     | .ok data => .ok (convertDeepSeekResponseToGeminiFormat data)
     | .err (some r) _ => .error (.errMessage (apiErrorMsgGC r))
     | .err none m => .error (.axiosError none m),
     [posted])

/-! ### The consumer's view of a stream -/

/-- One unit observed by a drain loop over the adapter's async
generator: a yielded response's text, the generator finishing
(`Done`), or the promise/generator rejecting (`Error`). -/
inductive StreamEvent where
  | content (text : String)
  | errorEv (e : Thrown)
  | done
deriving DecidableEq

/-- Flattened text of the first candidate of a response. -/
def respText (g : GenerateContentResponse) : String :=
  (g.candidates.head?.map (fun c => flattenParts c.content.parts)).getD ""

/-- The event sequence a consumer drains from the streaming call: each
yielded response is a `content` event, a generator that runs to
completion ends in `done`, and a rejected call is a single `errorEv`. -/
def streamEvents (r : Except Thrown (List GenerateContentResponse)) :
    List StreamEvent :=
  match r with
  | .error e => [.errorEv e]
  | .ok rs => rs.map (fun g => .content (respText g)) ++ [.done]

/-- Whether an event terminates a drain loop. -/
def isTerminalEv : StreamEvent → Bool
  | .done => true
  | .errorEv _ => true
  | .content _ => false

/-- Whether an event is a `content` event. -/
def isContentEv : StreamEvent → Bool
  | .content _ => true
  | _ => false

/-! ### Reference semantics of `getHistory`

JS arrays are heap references.  To state aliasing facts we model an
explicit heap of `Content[]` cells; a chat object holds the address of
its `history` array.  `Chat.getHistory` returns `this.history` — the
internal address itself — while `DeepSeekChat.getHistory` returns
`[...this.history]` — a freshly allocated copy. -/

/-- A heap of JS arrays of `Content`; addresses are indices. -/
structure Heap where
  cells : List (List Content)
deriving DecidableEq

/-- Dereference an address (out-of-range reads as empty). -/
def Heap.read (h : Heap) (r : Nat) : List Content :=
  h.cells.getD r []

/-- Overwrite the array at an address (models any in-place mutation of
the array: push, splice, index assignment). -/
def Heap.write (h : Heap) (r : Nat) (v : List Content) : Heap :=
  ⟨h.cells.set r v⟩

/-- Allocate a fresh array holding `v`; returns the new heap and the
fresh address. -/
def Heap.alloc (h : Heap) (v : List Content) : Heap × Nat :=
  (⟨h.cells ++ [v]⟩, h.cells.length)

/-- A chat object: the address of its private `history` array. -/
structure ChatHandle where
  historyRef : Nat
deriving DecidableEq

/-- `Chat.getHistory()` (the `Chat` class in `chat.ts`):
`return this.history;` — the internal array itself. -/
def chatGetHistory (h : Heap) (c : ChatHandle) : Heap × Nat :=
  (h, c.historyRef)

/-- `DeepSeekChat.getHistory()`: `return [...this.history];` — a fresh
copy of the internal array. -/
def dsChatGetHistory (h : Heap) (c : ChatHandle) : Heap × Nat :=
  h.alloc (h.read c.historyRef)

/-! ### The auth flow controller (`useAuthCommand.ts`)

The hook's state (`isAuthDialogOpen`, `isAuthenticating`, `authError`)
and refs (`isUserInitiatedAuthRef`, `hasAutoAuthFailedRef`), plus
`settings.merged.selectedAuthType`, modelled as one record.
`inFlightAuth` counts `performAuthFlow` promises currently pending,
which the JS code does not track anywhere — it is the observable the
concurrency claims are about. -/

structure AuthState where
  isAuthDialogOpen : Bool
  isAuthenticating : Bool
  isUserInitiatedAuth : Bool
  hasAutoAuthFailed : Bool
  selectedAuthType : Option String
  authError : Option String
  inFlightAuth : Nat
deriving DecidableEq

/-- The guard of the auto-auth `useEffect` body: it returns early when
the dialog is open, no method is selected, an attempt is already in
flight, the pending change is user-initiated, or auto-auth has already
failed. -/
def effectStarts (s : AuthState) : Bool :=
  !s.isAuthDialogOpen && s.selectedAuthType.isSome && !s.isAuthenticating
    && !s.isUserInitiatedAuth && !s.hasAutoAuthFailed

/-- Atomic steps of the hook.  Because `performAuthFlow` is awaited,
each attempt is a start step followed later by a completion step;
between the two, other steps may interleave. -/
inductive AuthStep where
  | effectRun
  | autoSucceed
  | autoFail
  | selectStart (m : Option String)
  | selectSucceed
  | selectFail
  | cancelAuth
  | openDialog
deriving DecidableEq

/-- Transition function, line by line from `useAuthCommand.ts`:

* `effectRun` — the `useEffect` body: if the guard blocks, nothing
  happens; otherwise `setIsAuthenticating(true)` and the auto attempt
  starts.
* `autoSucceed`/`autoFail` — completion of that attempt: the `catch`
  sets the error, marks `hasAutoAuthFailedRef`, opens the dialog; the
  `finally` clears `isAuthenticating`.
* `selectStart m` — `handleAuthSelect(m, scope)` up to its `await`:
  with a method it unconditionally marks user-initiated, clears the
  auto-fail ref, stores the method and starts an attempt — there is no
  `isAuthenticating` check; with `undefined` it just closes the dialog
  and clears the error.
* `selectSucceed`/`selectFail` — completion of that attempt: on error
  the handler records the error, resets the user-initiated ref and
  returns (dialog stays open); on success the `finally` and the tail
  close the dialog and clear the error.
* `cancelAuth` — `cancelAuthentication()`: only clears
  `isAuthenticating`.
* `openDialog` — `openAuthDialog()`. -/
def applyStep (s : AuthState) : AuthStep → AuthState
  | .effectRun =>
      if effectStarts s then
        { s with isAuthenticating := true, inFlightAuth := s.inFlightAuth + 1 }
      else s
  | .autoSucceed =>
      { s with isAuthenticating := false, inFlightAuth := s.inFlightAuth - 1 }
  | .autoFail =>
      { s with authError := some "Failed to login.",
               hasAutoAuthFailed := true,
               isAuthDialogOpen := true,
               isAuthenticating := false,
               inFlightAuth := s.inFlightAuth - 1 }
  | .selectStart (some m) =>
      { s with isUserInitiatedAuth := true,
               hasAutoAuthFailed := false,
               selectedAuthType := some m,
               isAuthenticating := true,
               inFlightAuth := s.inFlightAuth + 1 }
  | .selectStart none =>
      { s with isAuthDialogOpen := false, authError := none }
  | .selectSucceed =>
      { s with isAuthenticating := false,
               isUserInitiatedAuth := false,
               inFlightAuth := s.inFlightAuth - 1,
               isAuthDialogOpen := false,
               authError := none }
  | .selectFail =>
      { s with authError := some "Failed to login.",
               isUserInitiatedAuth := false,
               isAuthenticating := false,
               inFlightAuth := s.inFlightAuth - 1 }
  | .cancelAuth => { s with isAuthenticating := false }
  | .openDialog => { s with isAuthDialogOpen := true }

/-- Run a list of steps. -/
def runSteps (s : AuthState) : List AuthStep → AuthState
  | [] => s
  | st :: rest => runSteps (applyStep s st) rest

/-- Number of automatic attempts actually started along a trace: an
`effectRun` counts exactly when its guard lets the attempt start. -/
def countAutoStarts (s : AuthState) : List AuthStep → Nat
  | [] => 0
  | st :: rest =>
      (if st = .effectRun ∧ effectStarts s then 1 else 0)
        + countAutoStarts (applyStep s st) rest

/-- A user action that selects a concrete method. -/
def isUserSelect : AuthStep → Bool
  | .selectStart (some _) => true
  | _ => false

/-! ### Auxiliary predicates and concrete fixtures -/

/-- Substring occurrence over char lists (for reasoning about
diagnostics). -/
def containsSub (pat : List Char) : List Char → Bool
  | [] => pat.isPrefixOf []
  | c :: rest => pat.isPrefixOf (c :: rest) || containsSub pat rest

/-- Substring test on strings (for reasoning about diagnostics). -/
def strContains (s pat : String) : Bool :=
  containsSub pat.data s.data

/-- Whether a request's contents hold at least one user turn with
non-blank text after flattening — the spec's precondition for a
non-empty request. -/
def hasNonEmptyUserText (req : GenParams) : Bool :=
  req.contents.any (fun item =>
    (itemToContent item).role = "user"
      && !isBlank (flattenParts (itemToContent item).parts))

/-- A backend whose network call fails with no HTTP response. -/
def failBk : Backend := fun _ => .err none "network down"

/-- A backend that always answers `"hi"` with usage `{3,1,4}`. -/
def respHi : DeepSeekResponse := ⟨[⟨some ⟨some "hi"⟩⟩], some ⟨3, 1, 4⟩⟩

/-- Constant successful backend returning `respHi`. -/
def bkOk : Backend := fun _ => .ok respHi

/-- A backend rejecting every call with HTTP 401 Unauthorized. -/
def bk401 : Backend :=
  fun _ => .err (some ⟨401, "Unauthorized", none⟩) "Request failed with status code 401"

/-- A backend rejecting every call with HTTP 403 Forbidden. -/
def bk403 : Backend :=
  fun _ => .err (some ⟨403, "Forbidden", none⟩) "Request failed with status code 403"

/-- A fresh `DeepSeekChat` with empty history and no system prompt. -/
def st0 : DeepSeekChatState := ⟨"key", "deepseek-chat", "", []⟩

/-- A request carrying the single user string `"hello"`. -/
def reqHello : GenParams :=
  { contents := [.str "hello"], systemInstruction := none,
    temperature := none, topP := none, maxOutputTokens := none,
    aborted := false }

/-- A request whose only content is a user turn with blank text. -/
def reqBlank : GenParams :=
  { contents := [.content ⟨"user", [⟨""⟩]⟩], systemInstruction := none,
    temperature := none, topP := none, maxOutputTokens := none,
    aborted := false }

/-- A hook state with an authentication attempt in flight. -/
def authBusy : AuthState :=
  { isAuthDialogOpen := false, isAuthenticating := true,
    isUserInitiatedAuth := false, hasAutoAuthFailed := false,
    selectedAuthType := some "deepseek", authError := none,
    inFlightAuth := 1 }

/-- A hook state right after an automatic authentication failure. -/
def authFailedState : AuthState :=
  { isAuthDialogOpen := true, isAuthenticating := false,
    isUserInitiatedAuth := false, hasAutoAuthFailed := true,
    selectedAuthType := some "deepseek", authError := some "Failed to login.",
    inFlightAuth := 0 }

/-! ## Claims -/

/-- **C1, counterexample.**  The claim says a failed backend call
leaves the session history exactly as it was.  On a fresh `DeepSeekChat`
with empty history, sending `"hello"` against a backend whose call
fails (no HTTP response) throws — yet the history afterwards holds the
user turn `(user, "hello")`: length 1, not the 0 it had before the
call, because `sendMessageStream` pushes the user message before
posting and never rolls it back. -/
theorem C1_history_unchanged_counterexample :
    st0.history = [] ∧
    (st0.sendMessageStream true failBk false (.str "hello")).2 =
      .error (.axiosError none "network down") ∧
    (st0.sendMessageStream true failBk false (.str "hello")).1.history =
      [⟨"user", [⟨"hello"⟩]⟩] := by
  refine ⟨rfl, ?_, ?_⟩ <;> rfl

/-- **C1, amended.**  A `sendMessageStream` call that fails (for any
backend outcome, any abort state) leaves history equal to the history
before the call *plus the freshly appended user turn*; no model turn is
committed.  Retrying the same input therefore duplicates the user
entry. -/
theorem C1_failed_send_appends_only_user_turn
    (st : DeepSeekChatState) (envSet : Bool) (bk : Backend) (aborted : Bool)
    (msg : MessageParam) (e : Thrown)
    (h : (st.sendMessageStream envSet bk aborted msg).2 = .error e) :
    (st.sendMessageStream envSet bk aborted msg).1.history =
      st.history ++ [⟨"user", [⟨messageToText msg⟩]⟩] := by
  cases hx : axiosPost aborted bk
      (dsChatPosted st.apiKey
        (dsChatMessages st.systemPrompt
          (st.history ++ [⟨"user", [⟨messageToText msg⟩]⟩]))) with
  | ok data => simp [DeepSeekChatState.sendMessageStream, hx] at h
  | err resp m =>
    rcases resp with _ | r
    · simp [DeepSeekChatState.sendMessageStream, hx]
    · simp only [DeepSeekChatState.sendMessageStream, hx]
      split <;> simp

/-- **C1, witness** for the amended theorem at the concrete failing
call of the counterexample. -/
theorem C1_failed_send_appends_only_user_turn_witness :
    (st0.sendMessageStream true failBk false (.str "hello")).1.history =
      st0.history ++ [⟨"user", [⟨"hello"⟩]⟩] :=
  C1_failed_send_appends_only_user_turn st0 true failBk false (.str "hello")
    (.axiosError none "network down") rfl

/-- **C2, counterexample.**  The claim says a user method selection
made while `authenticating` is true never starts a second concurrent
attempt.  In the state `authBusy` (one attempt in flight,
`isAuthenticating = true`), `handleAuthSelect("api-key", scope)`
immediately starts `performAuthFlow` again — `handleAuthSelect` has no
`isAuthenticating` guard — so two attempts are in flight. -/
theorem C2_single_attempt_counterexample :
    authBusy.isAuthenticating = true ∧
    authBusy.inFlightAuth = 1 ∧
    (applyStep authBusy (.selectStart (some "api-key"))).inFlightAuth = 2 ∧
    (applyStep authBusy (.selectStart (some "api-key"))).isAuthenticating = true := by
  refine ⟨rfl, rfl, rfl, rfl⟩

/-- **C2, amended.**  Only the automatic auth effect respects the
`authenticating` flag: while `isAuthenticating` is true the effect body
is a no-op, but a user-initiated method selection unconditionally
starts another attempt, raising the number of in-flight attempts —
it is neither rejected nor deferred. -/
theorem C2_only_auto_effect_guarded
    (s : AuthState) (m : String) (h : s.isAuthenticating = true) :
    applyStep s .effectRun = s ∧
    (applyStep s (.selectStart (some m))).inFlightAuth = s.inFlightAuth + 1 ∧
    (applyStep s (.selectStart (some m))).isAuthenticating = true := by
  refine ⟨?_, rfl, rfl⟩
  simp [applyStep, effectStarts, h]

/-- **C2, witness** for the amended theorem at the in-flight state. -/
theorem C2_only_auto_effect_guarded_witness :
    applyStep authBusy .effectRun = authBusy ∧
    (applyStep authBusy (.selectStart (some "api-key"))).inFlightAuth =
      authBusy.inFlightAuth + 1 ∧
    (applyStep authBusy (.selectStart (some "api-key"))).isAuthenticating = true :=
  C2_only_auto_effect_guarded authBusy "api-key" rfl

/-- Every step other than a user method selection preserves the
`hasAutoAuthFailed` ref. -/
theorem hasAutoAuthFailed_preserved
    (s : AuthState) (st : AuthStep)
    (h : s.hasAutoAuthFailed = true) (hs : isUserSelect st = false) :
    (applyStep s st).hasAutoAuthFailed = true := by
  cases st with
  | effectRun =>
      by_cases hg : effectStarts s = true
      · simp [applyStep, hg, h]
      · simp only [Bool.not_eq_true] at hg
        simp [applyStep, hg, h]
  | selectStart m =>
      cases m with
      | none => simpa [applyStep] using h
      | some v => simp [isUserSelect] at hs
  | autoSucceed => simpa [applyStep] using h
  | autoFail => simp [applyStep]
  | selectSucceed => simpa [applyStep] using h
  | selectFail => simpa [applyStep] using h
  | cancelAuth => simpa [applyStep] using h
  | openDialog => simpa [applyStep] using h

/-- **C3.**  Auto-auth fires at most once per `autoAuthFailed` reset:
an automatic failure sets the `hasAutoAuthFailed` ref; while the ref is
set, any interleaving of effect runs, completions, cancellations and
dialog openings that contains no user method selection starts zero
automatic attempts; and only a user method selection clears the ref. -/
theorem C3_no_auto_retry_after_failure
    (s : AuthState) (trace : List AuthStep) (m : String)
    (hfail : s.hasAutoAuthFailed = true)
    (hnosel : trace.all (fun st => !isUserSelect st) = true) :
    (applyStep s .autoFail).hasAutoAuthFailed = true ∧
    countAutoStarts s trace = 0 ∧
    (applyStep s (.selectStart (some m))).hasAutoAuthFailed = false := by
  refine ⟨by simp [applyStep], ?_, by simp [applyStep]⟩
  induction trace generalizing s with
  | nil => rfl
  | cons st rest ih =>
      simp only [List.all_cons, Bool.and_eq_true, Bool.not_eq_true'] at hnosel
      have hpres := hasAutoAuthFailed_preserved s st hfail hnosel.1
      have hguard : effectStarts s = false := by
        simp [effectStarts, hfail]
      simp only [countAutoStarts, hguard]
      rw [if_neg (by simp [hguard])]
      simpa using ih (applyStep s st) hpres (by
        simpa [List.all_eq_true, Bool.not_eq_true'] using hnosel.2)

/-- **C3, witness**: from the post-failure state, a trace of effect
runs and a cancellation (no user selection) starts no automatic
attempt. -/
theorem C3_no_auto_retry_after_failure_witness :
    (applyStep authFailedState .autoFail).hasAutoAuthFailed = true ∧
    countAutoStarts authFailedState [.effectRun, .cancelAuth, .effectRun] = 0 ∧
    (applyStep authFailedState (.selectStart (some "deepseek"))).hasAutoAuthFailed
      = false :=
  C3_no_auto_retry_after_failure authFailedState
    [.effectRun, .cancelAuth, .effectRun] "deepseek" rfl rfl

/-- **C4.**  Over the DeepSeek (buffering) adapter, the streaming
operation is the buffered operation wrapped in a one-shot generator:
its result is the buffered result mapped into a one-element sequence,
both perform the identical single network call, and whenever the
buffered call succeeds with response `resp` the consumer drains exactly
one `Content` event carrying `resp`'s text followed by termination. -/
theorem C4_stream_equals_buffered
    (k : String) (envSet : Bool) (bk : Backend) (req : GenParams)
    (resp : GenerateContentResponse)
    (_hne : hasNonEmptyUserText req = true)
    (hok : (adapterGenerateContent k envSet bk req).1 = .ok resp) :
    (adapterGenerateContentStream k envSet bk req).1 =
      (adapterGenerateContent k envSet bk req).1.map (fun r => [r]) ∧
    (adapterGenerateContentStream k envSet bk req).2 =
      (adapterGenerateContent k envSet bk req).2 ∧
    streamEvents (adapterGenerateContentStream k envSet bk req).1 =
      [.content (respText resp), .done] := by
  refine ⟨rfl, rfl, ?_⟩
  simp only [adapterGenerateContentStream, adapterGenerateContent] at hok ⊢
  rw [hok]
  rfl

/-- **C4, witness** at the request `"hello"` against the constant
backend `bkOk`. -/
theorem C4_stream_equals_buffered_witness :
    (adapterGenerateContentStream "key" true bkOk reqHello).1 =
      (adapterGenerateContent "key" true bkOk reqHello).1.map (fun r => [r]) ∧
    (adapterGenerateContentStream "key" true bkOk reqHello).2 =
      (adapterGenerateContent "key" true bkOk reqHello).2 ∧
    streamEvents (adapterGenerateContentStream "key" true bkOk reqHello).1 =
      [.content (respText (convertDeepSeekResponseToGeminiFormat respHi)), .done] :=
  C4_stream_equals_buffered "key" true bkOk reqHello
    (convertDeepSeekResponseToGeminiFormat respHi) (by decide) rfl

/-- **C5, counterexample.**  The claim says mutating the sequence
returned by `getHistory` leaves the session's history unchanged.  For
the `Chat` class this fails: `Chat.getHistory` returns the internal
array itself (`return this.history`), so pushing an element onto the
returned array is visible to a subsequent read of the session's
history.  Concretely: a session whose history holds one turn; after
pushing one content onto the array returned by `getHistory`, the
internal history holds two. -/
theorem C5_readonly_snapshot_counterexample :
    (Heap.read ⟨[[⟨"user", [⟨"hello"⟩]⟩]]⟩ (ChatHandle.mk 0).historyRef) =
      [⟨"user", [⟨"hello"⟩]⟩] ∧
    chatGetHistory ⟨[[⟨"user", [⟨"hello"⟩]⟩]]⟩ (ChatHandle.mk 0) =
      (⟨[[⟨"user", [⟨"hello"⟩]⟩]]⟩, 0) ∧
    (Heap.write ⟨[[⟨"user", [⟨"hello"⟩]⟩]]⟩ 0
        ([⟨"user", [⟨"hello"⟩]⟩] ++ [⟨"user", [⟨"injected"⟩]⟩])).read
      (ChatHandle.mk 0).historyRef =
      [⟨"user", [⟨"hello"⟩]⟩, ⟨"user", [⟨"injected"⟩]⟩] := by
  refine ⟨rfl, rfl, rfl⟩

/-- **C5, amended.**  `DeepSeekChat.getHistory` does return a read-only
snapshot: it allocates a fresh copy, so overwriting the returned array
with any value leaves the session's internal history unchanged (and the
copy initially equals the internal history).  `Chat.getHistory`, by
contrast, returns the internal array itself, so mutation through it is
visible to the session (counterexample above). -/
theorem C5_deepseek_getHistory_snapshot
    (h : Heap) (c : ChatHandle) (v : List Content)
    (hin : c.historyRef < h.cells.length) :
    ((dsChatGetHistory h c).1.write (dsChatGetHistory h c).2 v).read c.historyRef
      = h.read c.historyRef ∧
    (dsChatGetHistory h c).1.read (dsChatGetHistory h c).2 = h.read c.historyRef := by
  constructor
  · simp only [dsChatGetHistory, Heap.alloc, Heap.write, Heap.read, List.getD,
      List.get?_eq_getElem?]
    rw [List.getElem?_set_ne (show h.cells.length ≠ c.historyRef by omega),
      List.getElem?_append_left hin]
  · simp only [dsChatGetHistory, Heap.alloc, Heap.read, List.getD,
      List.get?_eq_getElem?]
    rw [List.getElem?_append_right (Nat.le_refl _)]
    simp

/-- **C5, witness** for the amended theorem on a one-turn history. -/
theorem C5_deepseek_getHistory_snapshot_witness :
    ((dsChatGetHistory ⟨[[⟨"user", [⟨"hello"⟩]⟩]]⟩ (ChatHandle.mk 0)).1.write
        (dsChatGetHistory ⟨[[⟨"user", [⟨"hello"⟩]⟩]]⟩ (ChatHandle.mk 0)).2
        [⟨"user", [⟨"injected"⟩]⟩]).read (ChatHandle.mk 0).historyRef =
      Heap.read ⟨[[⟨"user", [⟨"hello"⟩]⟩]]⟩ (ChatHandle.mk 0).historyRef ∧
    (dsChatGetHistory ⟨[[⟨"user", [⟨"hello"⟩]⟩]]⟩ (ChatHandle.mk 0)).1.read
        (dsChatGetHistory ⟨[[⟨"user", [⟨"hello"⟩]⟩]]⟩ (ChatHandle.mk 0)).2 =
      Heap.read ⟨[[⟨"user", [⟨"hello"⟩]⟩]]⟩ (ChatHandle.mk 0).historyRef :=
  C5_deepseek_getHistory_snapshot ⟨[[⟨"user", [⟨"hello"⟩]⟩]]⟩ (ChatHandle.mk 0)
    [⟨"user", [⟨"injected"⟩]⟩] (by simp)

/-- **C6.**  Every event sequence drained from the adapter's streaming
operation ends in a terminal event: for any request the last event is
`done` or `errorEv`; and for the same request with the cancellation
signal fired, the sequence is exactly one error event — no `Content`
event is emitted after cancellation.  The same holds for the
`DeepSeekChat.sendMessageStream` generator. -/
theorem C6_stream_always_terminates
    (k : String) (envSet : Bool) (bk : Backend) (req : GenParams)
    (st : DeepSeekChatState) (msg : MessageParam) (aborted : Bool) :
    ((streamEvents (adapterGenerateContentStream k envSet bk req).1).getLast?.map
      isTerminalEv) = some true ∧
    streamEvents (adapterGenerateContentStream k envSet bk
        { req with aborted := true }).1 =
      [.errorEv (.axiosError none "canceled")] ∧
    ((streamEvents (adapterGenerateContentStream k envSet bk
        { req with aborted := true }).1).countP (fun e => isContentEv e)) = 0 ∧
    ((streamEvents ((st.sendMessageStream envSet bk aborted msg).2.map
        (fun r => [r]))).getLast?.map isTerminalEv) = some true ∧
    streamEvents ((st.sendMessageStream envSet bk true msg).2.map
        (fun r => [r])) = [.errorEv (.axiosError none "canceled")] := by
  refine ⟨?_, ?_, ?_, ?_, ?_⟩
  · cases hx : axiosPost req.aborted bk (wspPosted k req) with
    | ok data =>
        simp [adapterGenerateContentStream, generateContentWithSystemPrompt,
          streamEvents, Except.map, isTerminalEv, hx]
    | err resp m =>
        rcases resp with _ | r
        · simp [adapterGenerateContentStream, generateContentWithSystemPrompt,
            streamEvents, Except.map, isTerminalEv, hx]
        · simp only [adapterGenerateContentStream, generateContentWithSystemPrompt,
            hx]
          split <;> simp [streamEvents, Except.map, isTerminalEv]
  · simp [adapterGenerateContentStream, generateContentWithSystemPrompt,
      axiosPost, streamEvents, Except.map]
  · simp [adapterGenerateContentStream, generateContentWithSystemPrompt,
      axiosPost, streamEvents, Except.map, isContentEv]
  · cases hx : axiosPost aborted bk
        (dsChatPosted st.apiKey
          (dsChatMessages st.systemPrompt
            (st.history ++ [⟨"user", [⟨messageToText msg⟩]⟩]))) with
    | ok data =>
        simp [DeepSeekChatState.sendMessageStream, streamEvents, Except.map,
          isTerminalEv, hx]
    | err resp m =>
        rcases resp with _ | r
        · simp [DeepSeekChatState.sendMessageStream, streamEvents, Except.map,
            isTerminalEv, hx]
        · simp only [DeepSeekChatState.sendMessageStream, hx]
          split <;> simp [streamEvents, Except.map, isTerminalEv]
  · simp [DeepSeekChatState.sendMessageStream, axiosPost, streamEvents, Except.map]

/-- **C7, counterexample.**  The claim says a request with no non-empty
user text fails with `EmptyRequest` and performs no network call.  The
code has no such guard: for the request whose only content is a user
turn with blank text, `generateContentWithSystemPrompt` posts an empty
messages list (one network call) and returns the backend's answer —
it does not fail at all. -/
theorem C7_empty_request_counterexample :
    hasNonEmptyUserText reqBlank = false ∧
    buildMessagesWSP reqBlank = [] ∧
    (generateContentWithSystemPrompt "key" true bkOk reqBlank).2 =
      [wspPosted "key" reqBlank] ∧
    (generateContentWithSystemPrompt "key" true bkOk reqBlank).1 =
      .ok (convertDeepSeekResponseToGeminiFormat respHi) := by
  refine ⟨by decide, by decide, rfl, rfl⟩

/-- Helper: under a request with no non-empty user text, no posted
message carries the `user` role. -/
theorem buildMessagesWSP_no_user_role
    (req : GenParams) (h : hasNonEmptyUserText req = false) :
    (buildMessagesWSP req).all (fun m => m.role != "user") = true := by
  have hitems : ∀ item ∈ req.contents,
      ¬((itemToContent item).role = "user" ∧
        isBlank (flattenParts (itemToContent item).parts) = false) := by
    intro item hitem hcontra
    have htrue : hasNonEmptyUserText req = true := by
      simp only [hasNonEmptyUserText, List.any_eq_true]
      exact ⟨item, hitem, by simp [hcontra.1, hcontra.2]⟩
    rw [h] at htrue
    exact Bool.false_ne_true htrue
  rw [List.all_eq_true]
  intro m hm
  simp only [buildMessagesWSP, List.mem_append] at hm
  rcases hm with hm | hm
  · rcases hsys : req.systemInstruction with _ | si
    · rw [hsys] at hm
      simp at hm
    · rw [hsys] at hm
      by_cases hbs : isBlank (systemText si) = true
      · simp [hbs] at hm
      · simp only [Bool.not_eq_true] at hbs
        simp only [hbs, Bool.false_eq_true, if_false, List.mem_singleton] at hm
        subst hm
        rfl
  · rcases List.mem_filterMap.mp hm with ⟨c, hc, hfc⟩
    rcases List.mem_map.mp hc with ⟨item, hitem, hci⟩
    subst hci
    by_cases hb : isBlank (flattenParts (itemToContent item).parts) = true
    · simp [hb] at hfc
    · simp only [Bool.not_eq_true] at hb
      simp only [hb, Bool.false_eq_true, if_false, Option.some.injEq] at hfc
      subst hfc
      have hrole : (itemToContent item).role ≠ "user" := by
        intro hru
        exact hitems item hitem ⟨hru, hb⟩
      simp only [wspRole]
      split
      · rfl
      · simpa using hrole

/-- **C7, amended.**  There is no `EmptyRequest` guard: for every
request whose contents hold no user turn with non-empty text after
flattening, the buffered operation still performs exactly one network
call, and the messages it posts contain no `user`-role entry at all. -/
theorem C7_no_empty_request_guard
    (k : String) (envSet : Bool) (bk : Backend) (req : GenParams)
    (h : hasNonEmptyUserText req = false) :
    (generateContentWithSystemPrompt k envSet bk req).2 = [wspPosted k req] ∧
    (wspPosted k req).messages.all (fun m => m.role != "user") = true := by
  exact ⟨rfl, buildMessagesWSP_no_user_role req h⟩

/-- **C7, witness** for the amended theorem at the blank request. -/
theorem C7_no_empty_request_guard_witness :
    (generateContentWithSystemPrompt "key" true bkOk reqBlank).2 =
      [wspPosted "key" reqBlank] ∧
    (wspPosted "key" reqBlank).messages.all (fun m => m.role != "user") = true :=
  C7_no_empty_request_guard "key" true bkOk reqBlank (by decide)

/-- **C8.**  Usage accounting: the converted response always carries a
`usageMetadata` value — verbatim counts when the backend reports
`usage`, all-zero counts when it omits it, never absent.  At the
concrete response `{choices:[{message:{content:"hi"}}],
usage:{prompt_tokens:3, completion_tokens:1, total_tokens:4}}` the
result is a single Model candidate with part text `"hi"` and
`UsageMetadata {3,1,4}`; the `DeepSeekChat.sendMessageStream` turn
completed against the same backend answer carries the same metadata. -/
theorem C8_usage_metadata_always_present
    (d : DeepSeekResponse) (u : Usage) :
    (convertDeepSeekResponseToGeminiFormat ⟨d.choices, some u⟩).usageMetadata =
      some ⟨u.prompt_tokens, u.completion_tokens, u.total_tokens⟩ ∧
    (convertDeepSeekResponseToGeminiFormat ⟨d.choices, none⟩).usageMetadata =
      some ⟨0, 0, 0⟩ ∧
    (convertDeepSeekResponseToGeminiFormat d).usageMetadata.isSome = true ∧
    convertDeepSeekResponseToGeminiFormat respHi =
      { candidates := [{ content := ⟨"model", [⟨"hi"⟩]⟩,
                         finishReason := .STOP, index := some 0 }],
        usageMetadata := some ⟨3, 1, 4⟩, promptFeedbackPresent := true } ∧
    (st0.sendMessageStream true bkOk false (.str "hello")).2 =
      .ok (mkStreamResponse "hi" (some ⟨3, 1, 4⟩)) ∧
    (mkStreamResponse "hi" (some ⟨3, 1, 4⟩)).usageMetadata = some ⟨3, 1, 4⟩ := by
  refine ⟨rfl, rfl, rfl, rfl, ?_, rfl⟩
  rfl

/-- **C9, counterexample.**  The claim says every backend-rejected
forbidden/unauthorized response yields an authentication error naming
the credential source checked and its presence.  For HTTP 401
(unauthorized) the code only takes the generic branch: the thrown
message is `DeepSeek API Error: Unauthorized (Status: 401)`, which
names no credential source (`DEEPSEEK_API_KEY` and `config` do not
occur in it) and does not say whether a credential was present. -/
theorem C9_auth_diagnostic_counterexample :
    (generateContentWithSystemPrompt "sk-secret" true bk401 reqHello).1 =
      .error (.errMessage "DeepSeek API Error: Unauthorized (Status: 401)") ∧
    strContains "DeepSeek API Error: Unauthorized (Status: 401)"
      "DEEPSEEK_API_KEY" = false ∧
    strContains "DeepSeek API Error: Unauthorized (Status: 401)" "SET" = false ∧
    strContains "DeepSeek API Error: Unauthorized (Status: 401)" "config" = false := by
  refine ⟨rfl, by decide, by decide, by decide⟩

/-- **C9, amended.**  Only HTTP 403 (forbidden) takes the
authentication branch: when the backend rejects the posted request with
status 403, the operation fails with a message that names the
environment variable `DEEPSEEK_API_KEY` as the credential source
checked and states whether it was present (`SET`/`NOT SET`), and the
message is the same fixed string for any two credential values — the
secret itself never appears. -/
theorem C9_forbidden_names_env_source
    (k1 k2 : String) (envSet : Bool) (bk1 bk2 : Backend) (req : GenParams)
    (r1 r2 : AxiosErrResponse) (m1 m2 : String)
    (hab : req.aborted = false)
    (h1 : bk1 (wspPosted k1 req) = .err (some r1) m1) (hs1 : r1.status = 403)
    (h2 : bk2 (wspPosted k2 req) = .err (some r2) m2) (hs2 : r2.status = 403) :
    (generateContentWithSystemPrompt k1 envSet bk1 req).1 =
      .error (.errMessage (authFailedMsg envSet)) ∧
    (generateContentWithSystemPrompt k1 envSet bk1 req).1 =
      (generateContentWithSystemPrompt k2 envSet bk2 req).1 ∧
    strContains (authFailedMsg envSet)
      "Environment variable DEEPSEEK_API_KEY" = true ∧
    strContains (authFailedMsg envSet) (envStatus envSet) = true := by
  have e1 : (generateContentWithSystemPrompt k1 envSet bk1 req).1 =
      .error (.errMessage (authFailedMsg envSet)) := by
    simp [generateContentWithSystemPrompt, axiosPost, hab, h1, hs1]
  have e2 : (generateContentWithSystemPrompt k2 envSet bk2 req).1 =
      .error (.errMessage (authFailedMsg envSet)) := by
    simp [generateContentWithSystemPrompt, axiosPost, hab, h2, hs2]
  refine ⟨e1, e1.trans e2.symm, ?_, ?_⟩ <;> cases envSet <;> decide

/-- **C9, witness** for the amended theorem, with two different secret
keys against a backend answering 403. -/
theorem C9_forbidden_names_env_source_witness :
    (generateContentWithSystemPrompt "sk-aaa" true bk403 reqHello).1 =
      .error (.errMessage (authFailedMsg true)) ∧
    (generateContentWithSystemPrompt "sk-aaa" true bk403 reqHello).1 =
      (generateContentWithSystemPrompt "sk-bbb" true bk403 reqHello).1 ∧
    strContains (authFailedMsg true)
      "Environment variable DEEPSEEK_API_KEY" = true ∧
    strContains (authFailedMsg true) (envStatus true) = true :=
  C9_forbidden_names_env_source "sk-aaa" "sk-bbb" true bk403 bk403 reqHello
    ⟨403, "Forbidden", none⟩ ⟨403, "Forbidden", none⟩
    "Request failed with status code 403" "Request failed with status code 403"
    rfl rfl rfl rfl rfl

/-- **C10.**  `DeepSeekClient.generateContent` ignores its history
argument: with a configured (non-empty) API key, the outgoing message
list is always the single hard-coded user message, so the posted
request and the entire outcome are identical for any two histories. -/
theorem C10_generateContent_ignores_history
    (k : String) (envSet : Bool) (pr : String) (bk : Backend)
    (h1 h2 : List Turn) (hk : k ≠ "") :
    convertTurnsToMessages h1 = [⟨"user", "Hello, how can you help me?"⟩] ∧
    convertTurnsToMessages h1 = convertTurnsToMessages h2 ∧
    clientGenerateContent k envSet pr bk h1 =
      clientGenerateContent k envSet pr bk h2 := by
  refine ⟨rfl, rfl, ?_⟩
  simp [clientGenerateContent, convertTurnsToMessages, hk]

/-- **C10, witness**: empty history versus a one-turn history. -/
theorem C10_generateContent_ignores_history_witness :
    convertTurnsToMessages [] = [⟨"user", "Hello, how can you help me?"⟩] ∧
    convertTurnsToMessages [] = convertTurnsToMessages [⟨"user", [⟨"hi"⟩]⟩] ∧
    clientGenerateContent "key" true "null" bkOk [] =
      clientGenerateContent "key" true "null" bkOk [⟨"user", [⟨"hi"⟩]⟩] :=
  C10_generateContent_ignores_history "key" true "null" bkOk []
    [⟨"user", [⟨"hi"⟩]⟩] (by decide)

end GeminiCli
